import Mathlib

/-!
Shallow embedding of `src/main.py` (chatia-ofertas-integration), the single
FastAPI module combining a simulated FAISS facade with the "ofertas" service.
The algorithmic content lives in the handler `procesar_pliego`
(keyword classification over the lowercased RFP text, and fixed-stride
overlapping chunking of the text), plus the in-memory pagination of
`listar_ofertas`.  Python strings are embedded as `List Char`; Python `int`
as `Int`; absent/`null` optional ints as `Option Int`.  `uuid`/timestamp
fields are ambient nondeterminism (fresh randomness per request, read from
no program state) and are omitted from the embedded response records.
-/

namespace ChatiaMain

/-- Python `range(0, stop, step)` for a positive step: the multiples of
`step` below `stop`, i.e. `[k * step | k < ceil(stop / step)]`. -/
def pyStarts (stop s : Nat) : List Nat :=
  (List.range ((stop + s - 1) / s)).map (fun k => k * s)

/-- Resolve one bound of a Python slice `l[a:b]` against a list of length
`len`: negative indices count from the end, and both ends clamp to
`[0, len]`. -/
def pyIdx (len : Nat) (i : Int) : Nat :=
  if i < 0 then ((len : Int) + i).toNat else min i.toNat len

/-- Python slice `l[a:b]` (unit step). -/
def pySliceG (l : List α) (a b : Int) : List α :=
  (l.take (pyIdx l.length b)).drop (pyIdx l.length a)

/-- Code points Python's `str.strip()` removes (CPython's
`Py_UNICODE_ISSPACE`): the ASCII whitespace and information-separator
controls 0x09-0x0D and 0x1C-0x1F, space, NEL 0x85, NBSP 0xA0, Ogham space
mark 0x1680, the Unicode space separators 0x2000-0x200A, 0x202F, 0x205F
and 0x3000, and the line/paragraph separators 0x2028/0x2029. -/
def pyWhitespace : List Nat :=
  [0x09, 0x0A, 0x0B, 0x0C, 0x0D, 0x1C, 0x1D, 0x1E, 0x1F, 0x20,
   0x85, 0xA0, 0x1680, 0x2000, 0x2001, 0x2002, 0x2003, 0x2004, 0x2005,
   0x2006, 0x2007, 0x2008, 0x2009, 0x200A, 0x2028, 0x2029, 0x202F,
   0x205F, 0x3000]

/-- Whether `str.strip()` removes the character `c`. -/
def isPySpace (c : Char) : Bool :=
  pyWhitespace.contains c.toNat

/-- Truthiness of `s.strip()` in `if chunk_content.strip():` — true iff the
string has at least one non-whitespace character. -/
def stripTruthy (l : List Char) : Bool :=
  l.any (fun c => !(isPySpace c))

/-- Python `v or d` for an `Optional[int]` value `v`: `None` and `0` are
falsy and give the default `d`. -/
def pyOrInt (v : Option Int) (d : Int) : Int :=
  match v with
  | none => d
  | some x => if x = 0 then d else x

/-- Lowercasing of the RFP text, `request.rfp_content.lower()` (the
keyword lists are pure ASCII, where `Char.toLower` agrees with Python). -/
def pyLower (l : List Char) : List Char :=
  l.map Char.toLower

/-- `leadMatch n h` : the list `n` starts the list `h` (helper for Python
substring search). -/
def leadMatch : List Char → List Char → Bool
  | [], _ => true
  | _ :: _, [] => false
  | n :: ns, h :: hs => n == h && leadMatch ns hs

/-- Python `needle in hay` substring test. -/
def containsSub (needle : List Char) : List Char → Bool
  | [] => leadMatch needle []
  | h :: hs => leadMatch needle (h :: hs) || containsSub needle hs

/-- Python `any(word in content_lower for word in words)`. -/
def anyWordIn (hay : List Char) (words : List (List Char)) : Bool :=
  words.any (fun w => containsSub w hay)

/-- Keyword group for offer type "Cloud" (main.py line 163). -/
def cloudWords : List (List Char) :=
  ["cloud", "azure", "aws", "nube", "saas", "paas", "iaas"].map String.toList

/-- Keyword group for offer type "Seguridad" (main.py line 165). -/
def seguridadWords : List (List Char) :=
  ["seguridad", "ciberseguridad", "firewall", "antivirus", "ens", "esquema"].map String.toList

/-- Keyword group for offer type "Telco" (main.py line 167). -/
def telcoWords : List (List Char) :=
  ["telco", "telecomunicaciones", "5g", "fibra", "red", "conectividad"].map String.toList

/-- Keyword group for client type "Público" (main.py line 173). -/
def publicoWords : List (List Char) :=
  ["administracion", "publico", "ayuntamiento", "ministerio", "junta", "diputacion"].map String.toList

/-- Keyword group for sector "Salud" (main.py line 179). -/
def saludWords : List (List Char) :=
  ["salud", "sanitario", "hospital", "clinica"].map String.toList

/-- Keyword group for sector "Educación" (main.py line 181). -/
def educacionWords : List (List Char) :=
  ["educacion", "universidad", "colegio", "formacion"].map String.toList

/-- Keyword group for sector "Financiero" (main.py line 183). -/
def financieroWords : List (List Char) :=
  ["financiero", "banco", "fintech", "seguros"].map String.toList

/-- Keyword group for sector "Industrial" (main.py line 185). -/
def industrialWords : List (List Char) :=
  ["industria", "manufacturing", "produccion"].map String.toList

/-- `tipo_oferta` if/elif chain of `procesar_pliego` (main.py 163-170):
first matching keyword group in the order Cloud, Seguridad, Telco wins,
defaulting to "DX". -/
def tipoOferta (text : List Char) : String :=
  let content_lower := pyLower text
  if anyWordIn content_lower cloudWords then "Cloud"
  else if anyWordIn content_lower seguridadWords then "Seguridad"
  else if anyWordIn content_lower telcoWords then "Telco"
  else "DX"

/-- `tipo_cliente` branch of `procesar_pliego` (main.py 173-176). -/
def tipoCliente (text : List Char) : String :=
  let content_lower := pyLower text
  if anyWordIn content_lower publicoWords then "Público" else "Privado"

/-- `sector` if/elif chain of `procesar_pliego` (main.py 179-188). -/
def sectorLabel (text : List Char) : String :=
  let content_lower := pyLower text
  if anyWordIn content_lower saludWords then "Salud"
  else if anyWordIn content_lower educacionWords then "Educación"
  else if anyWordIn content_lower financieroWords then "Financiero"
  else if anyWordIn content_lower industrialWords then "Industrial"
  else "General"

/-- The slice `request.rfp_content[i : i + chunk_size]` taken by the
chunking loop (main.py 196). -/
def sliceAt (text : List Char) (cs : Int) (i : Nat) : List Char :=
  pySliceG text (i : Int) ((i : Int) + cs)

/-- One element of the `chunks` list built by `procesar_pliego`
(main.py 198-204). -/
structure Chunk where
  id : Nat
  content : List Char
  size : Nat
  start_pos : Nat
  end_pos : Int
deriving Repr, DecidableEq

/-- The chunking loop body of `procesar_pliego` (main.py 195-204): for each
start offset, slice `text[i : i+chunk_size]`, and append a chunk record
(with `id = len(chunks) + 1`) iff the slice has non-whitespace content. -/
def chunkLoop (text : List Char) (cs : Int) : List Nat → List Chunk → List Chunk
  | [], acc => acc
  | i :: rest, acc =>
    let chunk_content := sliceAt text cs i
    if stripTruthy chunk_content then
      chunkLoop text cs rest (acc ++
        [{ id := acc.length + 1
           content := chunk_content
           size := chunk_content.length
           start_pos := i
           end_pos := min ((i : Int) + cs) (text.length : Int) }])
    else
      chunkLoop text cs rest acc

/-- Chunking of `procesar_pliego` (main.py 191-204) including Python's
`range` semantics for the stride `chunk_size - overlap`: a zero step raises
`ValueError` (escaping to the handler's catch-all), a negative step makes
`range(0, len, step)` empty, a positive step walks the multiples of the
step below `len(text)`. -/
def segment (text : List Char) (cs ov : Int) : Except String (List Chunk) :=
  let step := cs - ov
  if step = 0 then Except.error "range() arg 3 must not be zero"
  else if step < 0 then Except.ok []
  else Except.ok (chunkLoop text cs (pyStarts text.length step.toNat) [])

/-- Request body of `POST /api/ofertas/procesarPliego` (`PliegoRequest`,
main.py 37-42); `none` models an explicit JSON `null`. -/
structure PliegoRequest where
  rfp_content : List Char
  rfp_name : String := "pliego.pdf"
  auto_generate : Bool := true
  chunk_size : Option Int := some 2000
  chunk_overlap : Option Int := some 200
deriving Repr, DecidableEq

/-- The `classification` block of the `procesarPliego` response
(main.py 212-220); static string fields are omitted. -/
structure Classification where
  tipo_oferta : String
  tipo_cliente : String
  sector : String
  normativas : List String
deriving Repr, DecidableEq

/-- The `chunks_info` block of the `procesarPliego` response
(main.py 222-227). -/
structure ChunksInfo where
  total_chunks : Nat
  chunk_size : Int
  chunk_overlap : Int
  total_characters : Nat
deriving Repr, DecidableEq

/-- The computed fields of the `procesarPliego` response (main.py 207-255);
`auto_generation` records whether the static auto-generation block is
appended. -/
structure PliegoResult where
  rfp_name : String
  classification : Classification
  chunks_created : Nat
  chunks_info : ChunksInfo
  auto_generation : Bool
deriving Repr, DecidableEq

/-- Handler `procesar_pliego` (main.py 150-262): classification of the
lowercased content, falsy-`or` defaulting of the chunking parameters,
chunking, and response assembly.  An uncaught Python exception (the zero
stride `ValueError`) becomes `Except.error`, which the endpoint turns into
HTTP 500. -/
def procesarPliego (req : PliegoRequest) : Except String PliegoResult :=
  let chunk_size := pyOrInt req.chunk_size 2000
  let overlap := pyOrInt req.chunk_overlap 200
  (segment req.rfp_content chunk_size overlap).map (fun chunks =>
    { rfp_name := req.rfp_name
      classification :=
        { tipo_oferta := tipoOferta req.rfp_content
          tipo_cliente := tipoCliente req.rfp_content
          sector := sectorLabel req.rfp_content
          normativas :=
            if tipoCliente req.rfp_content = "Público" then ["RGPD", "ENS"]
            else ["RGPD"] }
      chunks_created := chunks.length
      chunks_info :=
        { total_chunks := chunks.length
          chunk_size := chunk_size
          chunk_overlap := overlap
          total_characters := req.rfp_content.length }
      auto_generation := req.auto_generate })

/-- One record of the hard-coded `ofertas_ejemplo` list in `listar_ofertas`
(main.py 341-358); the random `offer_id` and timestamp fields are ambient
nondeterminism and omitted. -/
structure Oferta where
  rfp_name : String
  status : String
  tipo_oferta : String
  tipo_cliente : String
deriving Repr, DecidableEq

/-- The fixed two-element example list of `listar_ofertas` (main.py 341-358). -/
def ofertasEjemplo : List Oferta :=
  [{ rfp_name := "Pliego_Transformacion_Digital.pdf", status := "completed"
     tipo_oferta := "DX", tipo_cliente := "Público" },
   { rfp_name := "Pliego_Cloud_Migration.pdf", status := "processed"
     tipo_oferta := "Cloud", tipo_cliente := "Privado" }]

/-- The `pagination` block of the `listarOfertas` response (main.py 365-369). -/
structure Pagination where
  limit : Int
  offset : Int
  has_more : Bool
deriving Repr, DecidableEq

/-- The computed fields of the `listarOfertas` response (main.py 360-372). -/
structure ListResult where
  offers : List Oferta
  total_offers : Nat
  pagination : Pagination
deriving Repr, DecidableEq

/-- Handler `listar_ofertas` (main.py 334-378): slice the fixed example
list with `[offset : offset + limit]` and report `has_more` iff
`offset + limit < len(ofertas_ejemplo)`. -/
def listarOfertas (limit offset : Int) : ListResult :=
  { offers := pySliceG ofertasEjemplo offset (offset + limit)
    total_offers := ofertasEjemplo.length
    pagination :=
      { limit := limit
        offset := offset
        has_more := decide (offset + limit < (ofertasEjemplo.length : Int)) } }

/-- The static response of `obtener_estado_oferta` (main.py 303-332);
every field except `offer_id` is a constant. -/
structure EstadoResult where
  offer_id : String
  status : String
  tipo_oferta : String
  tipo_cliente : String
  sector : String
  total_chunks : Nat
  chunks_saved : Bool
  final_offer_available : Bool
deriving Repr, DecidableEq

/-- Handler `obtener_estado_oferta` (main.py 303-332). -/
def obtenerEstadoOferta (offer_id : String) : EstadoResult :=
  { offer_id := offer_id
    status := "completed"
    tipo_oferta := "DX"
    tipo_cliente := "Público"
    sector := "General"
    total_chunks := 5
    chunks_saved := true
    final_offer_available := true }

/-- A request to one of the three embedded "ofertas" endpoints. -/
inductive Request where
  | pliego (r : PliegoRequest)
  | estado (offer_id : String)
  | listar (limit offset : Int)
deriving Repr, DecidableEq

/-- A response from one of the three embedded "ofertas" endpoints. -/
inductive Response where
  | pliego (r : Except String PliegoResult)
  | estado (r : EstadoResult)
  | listar (r : ListResult)
deriving Repr

/-- Dispatch one request to its handler.  The module holds no mutable
state shared between handlers (no store of processed offers), so a handler
sees only its own request. -/
def handle : Request → Response
  | Request.pliego r => Response.pliego (procesarPliego r)
  | Request.estado i => Response.estado (obtenerEstadoOferta i)
  | Request.listar l o => Response.listar (listarOfertas l o)

/-- Run a sequence of requests against the service.  Because the source
module keeps no state across requests, the server is the per-request
dispatch mapped over the sequence. -/
def runServer (reqs : List Request) : List Response :=
  reqs.map handle

/-- The overlap default 200 is never defaulted away to zero: `None` and `0`
are replaced by 200 and any other int is nonzero by the `or` test itself. -/
theorem pyOrInt_200_ne_zero (v : Option Int) : pyOrInt v 200 ≠ 0 := by
  rcases v with _ | x <;> simp only [pyOrInt]
  · omega
  · split <;> omega

/-- Python `range(0, 0, s)` is empty for every step width. -/
theorem pyStarts_zero_stop (s : Nat) : pyStarts 0 s = [] := by
  rcases s with _ | s
  · rfl
  · simp [pyStarts, Nat.div_eq_of_lt (Nat.lt_succ_self s)]

/-- The strided loop of `procesar_pliego`, projected to the
`(start_pos, end_pos)` offsets of the chunks it emits: the accumulator's
offsets followed by one `(i, min (i + chunk_size) len)` pair per start
offset whose slice has non-whitespace content. -/
theorem chunkLoop_map_proj (text : List Char) (cs : Int) (starts : List Nat)
    (acc : List Chunk) :
    (chunkLoop text cs starts acc).map (fun c => (c.start_pos, c.end_pos))
      = acc.map (fun c => (c.start_pos, c.end_pos))
        ++ (starts.filter (fun i => stripTruthy (sliceAt text cs i))).map
            (fun i => ((i, min ((i : Int) + cs) (text.length : Int)) : Nat × Int)) := by
  induction starts generalizing acc with
  | nil => simp [chunkLoop]
  | cons i rest ih =>
    by_cases h : stripTruthy (sliceAt text cs i) = true
    · simp [chunkLoop, h, ih, List.filter_cons]
    · simp [chunkLoop, h, ih, List.filter_cons]

/-- The strided loop of `procesar_pliego`, projected to start offsets:
exactly the start offsets whose slice has non-whitespace content, in loop
order. -/
theorem chunkLoop_map_start (text : List Char) (cs : Int) (starts : List Nat)
    (acc : List Chunk) :
    (chunkLoop text cs starts acc).map (fun c => c.start_pos)
      = acc.map (fun c => c.start_pos)
        ++ starts.filter (fun i => stripTruthy (sliceAt text cs i)) := by
  induction starts generalizing acc with
  | nil => simp [chunkLoop]
  | cons i rest ih =>
    by_cases h : stripTruthy (sliceAt text cs i) = true
    · simp [chunkLoop, h, ih, List.filter_cons]
    · simp [chunkLoop, h, ih, List.filter_cons]

/-- The `id = len(chunks) + 1` assignment of `procesar_pliego` keeps ids
equal to position + 1 throughout the loop. -/
theorem chunkLoop_id (text : List Char) (cs : Int) (starts : List Nat)
    (acc : List Chunk)
    (hacc : ∀ j c, acc[j]? = some c → c.id = j + 1) :
    ∀ j c, (chunkLoop text cs starts acc)[j]? = some c → c.id = j + 1 := by
  induction starts generalizing acc with
  | nil => simpa [chunkLoop] using hacc
  | cons i rest ih =>
    show ∀ j c,
      (if stripTruthy (sliceAt text cs i) = true then
          chunkLoop text cs rest (acc ++
            [{ id := acc.length + 1
               content := sliceAt text cs i
               size := (sliceAt text cs i).length
               start_pos := i
               end_pos := min ((i : Int) + cs) (text.length : Int) }])
        else chunkLoop text cs rest acc)[j]? = some c → c.id = j + 1
    by_cases h : stripTruthy (sliceAt text cs i) = true
    · rw [if_pos h]
      apply ih
      intro j c hj
      rcases Nat.lt_or_ge j acc.length with hlt | hge
      · rw [List.getElem?_append_left hlt] at hj
        exact hacc j c hj
      · rw [List.getElem?_append_right hge] at hj
        rcases hsub : j - acc.length with _ | k
        · rw [hsub] at hj
          simp only [List.getElem?_cons_zero, Option.some.injEq] at hj
          have hjlen : j = acc.length := by omega
          rw [← hj, hjlen]
        · rw [hsub] at hj
          simp at hj
    · rw [if_neg h]
      exact ih acc hacc

/-- Comparison against the ceiling-division length of `pyStarts`:
`k` indexes a start offset iff the offset `k * s` is below the stop. -/
theorem lt_ceilDiv_iff (stop s k : Nat) (hs : 0 < s) :
    k < (stop + s - 1) / s ↔ k * s < stop := by
  rw [Nat.lt_iff_add_one_le, Nat.le_div_iff_mul_le hs, add_one_mul]
  have hs' := hs
  generalize k * s = m
  omega

/-- The `k`-th start offset produced by `range(0, stop, s)` is `k * s`. -/
theorem pyStarts_get (stop s k : Nat) (h : k < (pyStarts stop s).length) :
    (pyStarts stop s).get ⟨k, h⟩ = k * s := by
  simp [pyStarts]

/-- Any multiple of the stride below the stop is a start offset of
`range(0, stop, s)`. -/
theorem mul_mem_pyStarts (stop s k : Nat) (hs : 0 < s) (h : k * s < stop) :
    k * s ∈ pyStarts stop s := by
  simp only [pyStarts, List.mem_map, List.mem_range]
  exact ⟨k, (lt_ceilDiv_iff stop s k hs).mpr h, rfl⟩

/-- For a positive stride, `segment` takes the chunking path (no
`ValueError`, nonempty `range` walk). -/
theorem segment_ok (text : List Char) (cs ov : Int) (h : 0 < cs - ov) :
    segment text cs ov
      = Except.ok (chunkLoop text cs (pyStarts text.length (cs - ov).toNat) []) := by
  simp only [segment]
  rw [if_neg (by omega), if_neg (by omega)]


/-- C2: the code does not uniformly reject configurations with
overlap ≥ windowSize.  At overlap = windowSize the stride is zero and
Python's `range` raises `ValueError` (surfaced as a generic HTTP 500
fault), but at overlap > windowSize the stride is negative, `range` is
empty, and the handler silently succeeds with zero windows — contradicting
the claimed explicit rejection of every such configuration.  The spec
itself (§7) marks the missing guard as a latent defect of the source. -/
theorem claim_C2 :
    (∀ text : List Char,
        segment text 10 10 = Except.error "range() arg 3 must not be zero")
    ∧ (∀ text : List Char, segment text 10 11 = Except.ok []) :=
  ⟨fun _ => rfl, fun _ => rfl⟩

/-- C7 (amended): the empty text yields zero windows without error for
every configuration whose stride is nonzero (windowSize ≠ overlap); in
particular with windowSize 2000 and overlap 200.  (When
windowSize = overlap even the empty text faults on the zero stride, see
the counterexample.) -/
theorem claim_C7 :
    segment [] 2000 200 = Except.ok []
    ∧ ∀ cs ov : Int, cs ≠ ov → segment ([] : List Char) cs ov = Except.ok [] := by
  refine ⟨rfl, fun cs ov h => ?_⟩
  simp only [segment]
  rw [if_neg (by omega)]
  split
  · rfl
  · simp [List.length_nil, pyStarts_zero_stop, chunkLoop]

/-- Witness for C7 at windowSize 2000, overlap 200. -/
theorem claim_C7_witness :
    (2000 : Int) ≠ 200 ∧ segment ([] : List Char) 2000 200 = Except.ok [] :=
  ⟨by decide, claim_C7.2 2000 200 (by decide)⟩

/-- Counterexample to C7 as stated: empty input does not "always" succeed —
with windowSize = overlap = 10 the zero stride makes Python's `range`
raise even on the empty text. -/
theorem claim_C7_counterexample :
    segment ([] : List Char) 10 10 = Except.error "range() arg 3 must not be zero" :=
  rfl

/-- C8: with the fixed two-element example list, `listarOfertas` at
limit 1, offset 0 returns exactly one record, reports 2 total offers, and
sets `pagination.has_more`. -/
theorem claim_C8 :
    (listarOfertas 1 0).offers.length = 1
    ∧ (listarOfertas 1 0).total_offers = 2
    ∧ (listarOfertas 1 0).pagination.has_more = true :=
  ⟨rfl, rfl, rfl⟩

/-- C9: the module keeps no state across requests, so the response to an
`obtenerEstadoOferta` or `listarOfertas` request at the end of a request
sequence is independent of the earlier `procesarPliego` requests: two runs
differing only in those prior inputs give the same final response. -/
theorem claim_C9 (priors₁ priors₂ : List PliegoRequest) (offer_id : String)
    (limit offset : Int) :
    (runServer (priors₁.map Request.pliego ++ [Request.estado offer_id])).getLast?
      = (runServer (priors₂.map Request.pliego ++ [Request.estado offer_id])).getLast?
    ∧ (runServer (priors₁.map Request.pliego ++ [Request.listar limit offset])).getLast?
      = (runServer (priors₂.map Request.pliego ++ [Request.listar limit offset])).getLast? := by
  constructor <;> simp [runServer, List.map_append, List.getLast?_concat]

/-- C4: a text whose lowercased form contains both a Cloud keyword and a
Seguridad (Security) keyword classifies as "Cloud": the Cloud group is
tested first in the if/elif chain of `procesar_pliego`. -/
theorem claim_C4 (text : List Char)
    (hcloud : anyWordIn (pyLower text) cloudWords = true)
    (_hsec : anyWordIn (pyLower text) seguridadWords = true) :
    tipoOferta text = "Cloud" := by
  simp [tipoOferta, hcloud]

/-- Witness for C4 on a text containing "cloud" and "firewall". -/
theorem claim_C4_witness :
    anyWordIn (pyLower "migracion cloud con firewall".toList) cloudWords = true
    ∧ anyWordIn (pyLower "migracion cloud con firewall".toList) seguridadWords = true
    ∧ tipoOferta "migracion cloud con firewall".toList = "Cloud" :=
  ⟨by decide, by decide, claim_C4 _ (by decide) (by decide)⟩

/-- C5: each classification axis always returns exactly one label from its
closed enumeration ("Cloud"/"Seguridad"/"Telco"/"DX" for offer type,
"Público"/"Privado" for client type, "Salud"/"Educación"/"Financiero"/
"Industrial"/"General" for sector — the code's Spanish spellings of the
claim's Cloud/Security/Telco/DigitalTransformation, Public/Private, and
Health/Education/Financial/Industrial/General), and when no keyword group
of an axis matches, the axis's default ("DX"/"Privado"/"General") is
returned.  The classifiers are total Lean functions, so classification
never fails. -/
theorem claim_C5 (text : List Char) :
    (tipoOferta text = "Cloud" ∨ tipoOferta text = "Seguridad"
      ∨ tipoOferta text = "Telco" ∨ tipoOferta text = "DX")
    ∧ (tipoCliente text = "Público" ∨ tipoCliente text = "Privado")
    ∧ (sectorLabel text = "Salud" ∨ sectorLabel text = "Educación"
      ∨ sectorLabel text = "Financiero" ∨ sectorLabel text = "Industrial"
      ∨ sectorLabel text = "General")
    ∧ (anyWordIn (pyLower text) cloudWords = false →
        anyWordIn (pyLower text) seguridadWords = false →
        anyWordIn (pyLower text) telcoWords = false → tipoOferta text = "DX")
    ∧ (anyWordIn (pyLower text) publicoWords = false → tipoCliente text = "Privado")
    ∧ (anyWordIn (pyLower text) saludWords = false →
        anyWordIn (pyLower text) educacionWords = false →
        anyWordIn (pyLower text) financieroWords = false →
        anyWordIn (pyLower text) industrialWords = false →
        sectorLabel text = "General") := by
  refine ⟨?_, ?_, ?_, ?_, ?_, ?_⟩
  · simp only [tipoOferta]
    repeat' split
    all_goals simp
  · simp only [tipoCliente]
    split
    all_goals simp
  · simp only [sectorLabel]
    repeat' split
    all_goals simp
  · intro h1 h2 h3
    simp [tipoOferta, h1, h2, h3]
  · intro h1
    simp [tipoCliente, h1]
  · intro h1 h2 h3 h4
    simp [sectorLabel, h1, h2, h3, h4]

/-- Witness for C5 on the keyword-free text "zzz": every axis falls back
to its default label. -/
theorem claim_C5_witness :
    tipoOferta "zzz".toList = "DX"
    ∧ tipoCliente "zzz".toList = "Privado"
    ∧ sectorLabel "zzz".toList = "General" :=
  ⟨(claim_C5 "zzz".toList).2.2.2.1 (by decide) (by decide) (by decide),
   (claim_C5 "zzz".toList).2.2.2.2.1 (by decide),
   (claim_C5 "zzz".toList).2.2.2.2.2 (by decide) (by decide) (by decide) (by decide)⟩

/-- C10: the falsy `or` defaulting of `procesar_pliego`.  A request whose
`chunk_size` (resp. `chunk_overlap`) is explicitly 0 is processed exactly
as if it carried the default 2000 (resp. 200); every successful response
echoes the defaulted values `pyOrInt chunk_size 2000` and
`pyOrInt chunk_overlap 200` in `chunks_info`, and the effective overlap is
never zero. -/
theorem claim_C10 :
    (∀ req : PliegoRequest, req.chunk_size = some 0 →
        procesarPliego req = procesarPliego { req with chunk_size := some 2000 })
    ∧ (∀ req : PliegoRequest, req.chunk_overlap = some 0 →
        procesarPliego req = procesarPliego { req with chunk_overlap := some 200 })
    ∧ (∀ (req : PliegoRequest) (r : PliegoResult), procesarPliego req = Except.ok r →
        r.chunks_info.chunk_size = pyOrInt req.chunk_size 2000
        ∧ r.chunks_info.chunk_overlap = pyOrInt req.chunk_overlap 200
        ∧ r.chunks_info.chunk_overlap ≠ 0) := by
  refine ⟨?_, ?_, ?_⟩
  · intro req h
    simp [procesarPliego, h, pyOrInt]
  · intro req h
    simp [procesarPliego, h, pyOrInt]
  · intro req r h
    revert h
    simp only [procesarPliego]
    cases hseg : segment req.rfp_content (pyOrInt req.chunk_size 2000)
        (pyOrInt req.chunk_overlap 200) <;> intro h
    · simp [Except.map] at h
    · simp only [Except.map, Except.ok.injEq] at h
      rw [← h]
      exact ⟨rfl, rfl, pyOrInt_200_ne_zero _⟩

/-- Witness for C10: explicitly setting `chunk_size = 0` on a concrete
request is processed as the default 2000, and a concrete successful
response echoes the defaulted parameters with a nonzero overlap. -/
theorem claim_C10_witness :
    (procesarPliego { rfp_content := "hola".toList, chunk_size := some 0 }
      = procesarPliego { rfp_content := "hola".toList, chunk_size := some 2000 })
    ∧ ((2000 : Int) = pyOrInt (some 2000) 2000
        ∧ (200 : Int) = pyOrInt (some 200) 200
        ∧ (200 : Int) ≠ 0) :=
  ⟨claim_C10.1 { rfp_content := "hola".toList, chunk_size := some 0 } rfl,
   claim_C10.2.2 { rfp_content := "hola".toList }
     { rfp_name := "pliego.pdf"
       classification := { tipo_oferta := "DX", tipo_cliente := "Privado",
                           sector := "General", normativas := ["RGPD"] }
       chunks_created := 1
       chunks_info := { total_chunks := 1, chunk_size := 2000,
                        chunk_overlap := 200, total_characters := 4 }
       auto_generation := true } rfl⟩

set_option maxRecDepth 8000 in
/-- Counterexample to C1 as stated: the all-'a' text of length 1801
satisfies len ≤ 2000 and has non-whitespace content, yet
segmenting with windowSize 2000 and overlap 200 emits two windows (the
stride is 1800, so a second slice starts at offset 1800), not one. -/
theorem claim_C1_counterexample :
    (List.replicate 1801 'a').length ≤ 2000
    ∧ stripTruthy (List.replicate 1801 'a') = true
    ∧ Except.map List.length (segment (List.replicate 1801 'a') 2000 200)
        = Except.ok 2 :=
  ⟨by simp, rfl, rfl⟩

/-- Counterexample to C3 as stated: with windowSize 2, overlap 0 on
"ab  cd" (a valid configuration), the all-whitespace middle slice is
skipped, the emitted windows span offsets [0,2) and [4,6), and position 2
(< len 6) lies in neither — the ranges do not cover [0, len) — and with
windowSize 10, overlap 8 on "aaaaa" the emitted windows span [0,5), [2,5),
[4,5), so the first two consecutive windows (the first is not the final
window) overlap by 5 - 2 = 3 characters, not by overlap = 8. -/
theorem claim_C3_counterexample :
    Except.map (List.map (fun c => (c.start_pos, c.end_pos)))
        (segment "ab  cd".toList 2 0)
      = Except.ok [(0, 2), (4, 6)]
    ∧ ¬ ((0 : Nat) ≤ 2 ∧ (2 : Int) < 2)
    ∧ ¬ ((4 : Nat) ≤ 2 ∧ (2 : Int) < 6)
    ∧ Except.map (List.map (fun c => (c.start_pos, c.end_pos)))
        (segment "aaaaa".toList 10 8)
      = Except.ok [(0, 5), (2, 5), (4, 5)]
    ∧ (5 : Int) - 2 ≠ 8 :=
  ⟨rfl, by decide, by decide, rfl, by decide⟩

/-- C1 (amended): for every text of length at most 1800 — the stride
`windowSize - overlap`, not the windowSize 2000 of the original claim —
with content that is not entirely Python whitespace, segmenting with
windowSize 2000 and overlap 200 returns exactly one window, spanning the
whole text (start offset 0, end offset len(text)).  The counterexample
shows the claimed bound 2000 fails at length 1801. -/
theorem claim_C1 (text : List Char) (h2 : text.length ≤ 1800)
    (h3 : stripTruthy text = true) :
    segment text 2000 200
      = Except.ok [{ id := 1, content := text, size := text.length,
                     start_pos := 0, end_pos := (text.length : Int) }] := by
  have h1 : 1 ≤ text.length := by
    rcases text with _ | ⟨c, rest⟩
    · simp [stripTruthy] at h3
    · simp
  rw [segment_ok text 2000 200 (by decide),
    show ((2000 : Int) - 200).toNat = 1800 from rfl]
  have hq : (text.length + 1799) / 1800 = 1 := by omega
  have hps : pyStarts text.length 1800 = [0] := by
    simp [pyStarts, hq, List.range_succ]
  rw [hps]
  have hsl : sliceAt text 2000 0 = text := by
    have h4 : text.length ≤ 2000 := by omega
    simp [sliceAt, pySliceG, pyIdx, Nat.min_eq_right h4]
  simp [chunkLoop, hsl, h3]
  omega

/-- Witness for C1 on the four-character text "hola". -/
theorem claim_C1_witness :
    segment "hola".toList 2000 200
      = Except.ok [{ id := 1, content := "hola".toList, size := 4,
                     start_pos := 0, end_pos := 4 }] :=
  claim_C1 "hola".toList (by decide) (by decide)

/-- C3 (amended): for every text and every valid configuration
(0 ≤ overlap < windowSize), provided every strided slice has
non-whitespace content (so no window is skipped), the emitted windows'
offset ranges cover [0, len(text)) with no gaps, and each consecutive pair
of windows overlaps by exactly `overlap` characters whenever the earlier
window of the pair is untruncated (its start + windowSize ≤ len(text));
windows reaching the end of the text are truncated to it, and — as the
counterexample shows — truncated non-final windows and skipped
whitespace-only slices break the unconditional version of the claim. -/
theorem claim_C3 (text : List Char) (cs ov : Int) (h0 : 0 ≤ ov) (h1 : ov < cs)
    (htr : ∀ i ∈ pyStarts text.length (cs - ov).toNat,
        stripTruthy (sliceAt text cs i) = true) :
    ∃ chunks, segment text cs ov = Except.ok chunks
      ∧ (∀ p : Nat, p < text.length →
          ∃ c ∈ chunks, c.start_pos ≤ p ∧ (p : Int) < c.end_pos)
      ∧ chunks.Chain' (fun c₁ c₂ =>
          (c₁.start_pos : Int) + cs ≤ (text.length : Int) →
            c₁.end_pos - (c₂.start_pos : Int) = ov) := by
  have hstep : (0 : Int) < cs - ov := by omega
  have hs : 0 < (cs - ov).toNat := by omega
  have hsc : (((cs - ov).toNat : Nat) : Int) = cs - ov := by omega
  have hfilter : (pyStarts text.length (cs - ov).toNat).filter
        (fun i => stripTruthy (sliceAt text cs i))
      = pyStarts text.length (cs - ov).toNat :=
    List.filter_eq_self.mpr (fun a ha => htr a ha)
  have hproj : (chunkLoop text cs (pyStarts text.length (cs - ov).toNat) []).map
        (fun c => (c.start_pos, c.end_pos))
      = (pyStarts text.length (cs - ov).toNat).map
          (fun i => ((i, min ((i : Int) + cs) (text.length : Int)) : Nat × Int)) := by
    rw [chunkLoop_map_proj, hfilter]
    simp
  refine ⟨_, segment_ok text cs ov hstep, ?_, ?_⟩
  · intro p hp
    have hile : p / (cs - ov).toNat * (cs - ov).toNat ≤ p := Nat.div_mul_le_self p _
    have higt : p < p / (cs - ov).toNat * (cs - ov).toNat + (cs - ov).toNat :=
      Nat.lt_div_mul_add hs
    have hk : p / (cs - ov).toNat * (cs - ov).toNat < text.length :=
      Nat.lt_of_le_of_lt hile hp
    have hmem := mul_mem_pyStarts text.length (cs - ov).toNat (p / (cs - ov).toNat) hs hk
    have hmem2 : ((p / (cs - ov).toNat * (cs - ov).toNat,
        min (((p / (cs - ov).toNat * (cs - ov).toNat : Nat) : Int) + cs)
          (text.length : Int)) : Nat × Int)
        ∈ (chunkLoop text cs (pyStarts text.length (cs - ov).toNat) []).map
            (fun c => (c.start_pos, c.end_pos)) := by
      rw [hproj]
      exact List.mem_map_of_mem _ hmem
    rcases List.mem_map.mp hmem2 with ⟨c, hc, hceq⟩
    have hst : c.start_pos = p / (cs - ov).toNat * (cs - ov).toNat :=
      congrArg Prod.fst hceq
    have hend : c.end_pos
        = min (((p / (cs - ov).toNat * (cs - ov).toNat : Nat) : Int) + cs)
            (text.length : Int) :=
      congrArg Prod.snd hceq
    have hplen : (p : Int) < (text.length : Int) := by exact_mod_cast hp
    have higt' : (p : Int)
        < ((p / (cs - ov).toNat * (cs - ov).toNat : Nat) : Int)
          + (((cs - ov).toNat : Nat) : Int) := by
      exact_mod_cast higt
    refine ⟨c, hc, ?_, ?_⟩
    · rw [hst]
      exact hile
    · rw [hend]
      omega
  · have hT3 : List.Chain'
        (fun k k' : Nat =>
          ((k * (cs - ov).toNat : Nat) : Int) + cs ≤ (text.length : Int) →
            min (((k * (cs - ov).toNat : Nat) : Int) + cs) (text.length : Int)
              - ((k' * (cs - ov).toNat : Nat) : Int) = ov)
        (List.range ((text.length + (cs - ov).toNat - 1) / (cs - ov).toNat)) := by
      cases hn : (text.length + (cs - ov).toNat - 1) / (cs - ov).toNat with
      | zero => simp
      | succ n =>
        rw [List.chain'_range_succ]
        intro m _hm huntr
        have hmul : (((m + 1) * (cs - ov).toNat : Nat) : Int)
            = ((m * (cs - ov).toNat : Nat) : Int) + (((cs - ov).toNat : Nat) : Int) := by
          push_cast
          ring
        rw [hmul]
        omega
    have hT2 : List.Chain'
        (fun i j : Nat =>
          (i : Int) + cs ≤ (text.length : Int) →
            min ((i : Int) + cs) (text.length : Int) - (j : Int) = ov)
        (pyStarts text.length (cs - ov).toNat) := by
      simp only [pyStarts]
      exact (List.chain'_map _).mpr hT3
    have hT : List.Chain'
        (fun a b : Nat × Int =>
          (a.1 : Int) + cs ≤ (text.length : Int) → a.2 - (b.1 : Int) = ov)
        ((chunkLoop text cs (pyStarts text.length (cs - ov).toNat) []).map
          (fun c => (c.start_pos, c.end_pos))) := by
      rw [hproj]
      exact (List.chain'_map _).mpr hT2
    exact (List.chain'_map _).mp hT

/-- Witness for C3 on the spec's own example: a 23-character
non-whitespace text with windowSize 10, overlap 5. -/
theorem claim_C3_witness :
    ∃ chunks,
      segment "abcdefghijklmnopqrstuvw".toList 10 5 = Except.ok chunks
      ∧ (∀ p : Nat, p < "abcdefghijklmnopqrstuvw".toList.length →
          ∃ c ∈ chunks, c.start_pos ≤ p ∧ (p : Int) < c.end_pos)
      ∧ chunks.Chain' (fun c₁ c₂ =>
          (c₁.start_pos : Int) + 10 ≤ ("abcdefghijklmnopqrstuvw".toList.length : Int) →
            c₁.end_pos - (c₂.start_pos : Int) = 5) :=
  claim_C3 "abcdefghijklmnopqrstuvw".toList 10 5 (by decide) (by decide) (by decide)

/-- C6: for every text and every valid configuration
(0 ≤ overlap < windowSize), segmentation succeeds, the emitted windows
have strictly increasing start offsets, and their IDs are exactly the
contiguous sequence 1..N in emission order (the `j`-th emitted window has
id `j + 1`), even when whitespace-only slices are skipped. -/
theorem claim_C6 (text : List Char) (cs ov : Int) (_h0 : 0 ≤ ov) (h1 : ov < cs) :
    ∃ chunks, segment text cs ov = Except.ok chunks
      ∧ (chunks.map (fun c => c.start_pos)).Pairwise (· < ·)
      ∧ ∀ j c, chunks[j]? = some c → c.id = j + 1 := by
  have hstep : (0 : Int) < cs - ov := by omega
  have hs : 0 < (cs - ov).toNat := by omega
  refine ⟨_, segment_ok text cs ov hstep, ?_, ?_⟩
  · rw [chunkLoop_map_start]
    simp only [List.map_nil, List.nil_append]
    apply List.Pairwise.filter
    simp only [pyStarts]
    exact (List.pairwise_lt_range _).map _
      (fun a b hab => (Nat.mul_lt_mul_right hs).mpr hab)
  · exact chunkLoop_id text cs _ []
      (by intro j c hj; simp at hj)

/-- Witness for C6 on "ab  cd" with windowSize 2, overlap 0, where the
whitespace-only middle slice is skipped but IDs stay contiguous. -/
theorem claim_C6_witness :
    ∃ chunks, segment "ab  cd".toList 2 0 = Except.ok chunks
      ∧ (chunks.map (fun c => c.start_pos)).Pairwise (· < ·)
      ∧ ∀ j c, chunks[j]? = some c → c.id = j + 1 :=
  claim_C6 "ab  cd".toList 2 0 (by decide) (by decide)

end ChatiaMain
